import Mathlib

/-!
Shallow embedding of the three Ansible Azure resource modules
(azure_rm_resourcegroup.py, azure_rm_networkinterface.py,
azure_rm_virtualmachine.py) and proofs about their reconciliation logic.

Modelling conventions:
- Python dicts of string pairs become association lists; `None` becomes
  `Option.none`.
- The Azure provider (the Resource Client collaborator of spec section 6)
  is a record of lookup tables; `get` style calls are pure lookups, and a
  missing key is the NotFound / CloudError signal.
- Provider mutations (create_or_update, delete, delete_blob) are recorded
  in a trace of `Mut` events; each module entry point returns
  `Except String result × List Mut`: the `Except.error` case is the
  module aborting via `fail` or an uncaught Python exception, and the
  trace lists the mutation calls issued before returning or aborting.
- Long-running-operation polling (`get_poller_result`) and
  `check_provisioning_state` are collaborators modelled as succeeding;
  `create_or_update` responses are modelled as echoing the submitted
  specification back as the stored resource.
-/

/-- A Python tags value: a dict of string pairs, or None. -/
abbrev Tags := Option (List (String × String))

/-- Python dict equality on string-pair dicts: same keys, same values,
order irrelevant (dicts cannot hold duplicate keys). -/
def dictEq (a b : List (String × String)) : Bool :=
  a.all (fun kv => b.lookup kv.1 == some kv.2) &&
  b.all (fun kv => a.lookup kv.1 == some kv.2)

/-- Python `!=` on two tags values (`None` is only equal to `None`). -/
def tagsEq : Tags → Tags → Bool
  | none, none => true
  | some a, some b => dictEq a b
  | _, _ => false

/-- Python truthiness of a tags value: `None` and `dict()` are falsy. -/
def tagsTruthy : Tags → Bool
  | some (_ :: _) => true
  | _ => false

/-- Python truthiness of an optional string: `None` and the empty string
are falsy. -/
def strTruthy : Option String → Bool
  | some s => !(s == "")
  | none => false

/-- How Python str.format renders an optional string (None prints as
the word None). -/
def optStr : Option String → String
  | some s => s
  | none => "None"

/-- Python `==` between an observed (always present) string field and an
optional desired value: a string never equals None. -/
def locEq (observed : String) (desired : Option String) : Bool :=
  match desired with
  | some d => observed == d
  | none => false

/-- Whether an Except value is the module aborting. -/
def isFatal {α : Type} (e : Except String α) : Bool :=
  match e with
  | Except.error _ => true
  | Except.ok _ => false

/-- Desired lifecycle state for resource groups and network interfaces. -/
inductive RState
  | present
  | absent
deriving DecidableEq, Repr

/-- Desired lifecycle state for virtual machines. -/
inductive VmState
  | started
  | stopped
  | absent
deriving DecidableEq, Repr

/-! ## Provider-side resource representations -/

/-- An Azure resource group as returned by the provider
(an SDK model object, not a dict). -/
structure RGData where
  id : String
  name : String
  location : String
  tags : Tags
  provisioning_state : String
deriving DecidableEq, Repr

/-- The dict built by resource_group_to_dict. -/
structure RGDict where
  id : String
  name : String
  location : String
  tags : Tags
  provisioning_state : String
deriving DecidableEq, Repr

/-- azure_rm_resourcegroup.py lines 137-144. -/
def resource_group_to_dict (rg : RGData) : RGDict :=
  { id := rg.id, name := rg.name, location := rg.location, tags := rg.tags,
    provisioning_state := rg.provisioning_state }

/-- A subnet as returned by the provider. -/
structure SubnetData where
  id : String
  name : String
deriving DecidableEq, Repr

/-- A public IP address as returned by the provider. -/
structure PipData where
  id : String
  name : String
  location : String
  resource_guid : String
deriving DecidableEq, Repr

/-- A network security group as returned by the provider. -/
structure NsgData where
  id : String
  name : String
  location : String
  resource_guid : String
deriving DecidableEq, Repr

/-- The subnet reference attached to a NIC ip configuration. -/
structure NicSubnetRef where
  id : String
  name : String
deriving DecidableEq, Repr

/-- The public IP reference attached to a NIC ip configuration. -/
structure NicPipRef where
  id : String
deriving DecidableEq, Repr

/-- One ip configuration of a provider-side network interface. -/
structure NicIpConf where
  name : String
  private_ip_address : Option String
  private_ip_allocation_method : String
  subnet : Option NicSubnetRef
  public_ip_address : Option NicPipRef
deriving DecidableEq, Repr

instance : Inhabited NicIpConf :=
  ⟨{ name := "", private_ip_address := none, private_ip_allocation_method := "",
     subnet := none, public_ip_address := none }⟩

/-- DNS settings of a network interface. -/
structure DnsSettingsData where
  dns_servers : List String
  applied_dns_servers : List String
  internal_dns_name_label : Option String
  internal_fqdn : Option String
deriving DecidableEq, Repr

/-- The security-group reference attached to a provider-side NIC. -/
structure NicNsgRef where
  id : String
  name : String
deriving DecidableEq, Repr

/-- A network interface as returned by the provider. -/
structure NicData where
  id : String
  name : String
  type : String
  location : String
  tags : Tags
  network_security_group : Option NicNsgRef
  ip_configurations : List NicIpConf
  dns_settings : DnsSettingsData
  mac_address : Option String
  primary : Option Bool
  enable_ip_forwarding : Bool
  provisioning_state : String
  etag : String
deriving DecidableEq, Repr

/-- A virtual machine as returned by the provider. Only its existence is
ever consulted by exec_module_impl (the fetched object is serialized for
logging only). -/
structure VmData where
  id : String
  name : String
  location : String
deriving DecidableEq, Repr

/-! ## Result dict shapes (network interface) -/

/-- The network_security_group sub-dict of nic_to_dict: starts empty,
optionally gains id and name. -/
structure NsgDict where
  id : Option String := none
  name : Option String := none
deriving DecidableEq, Repr

/-- The subnet sub-dict of nic_to_dict. -/
structure SubnetDict where
  id : Option String := none
deriving DecidableEq, Repr

/-- The public_ip_address sub-dict of nic_to_dict. -/
structure PipDict where
  id : Option String := none
  name : Option String := none
deriving DecidableEq, Repr

/-- The ip_configuration sub-dict of nic_to_dict. The last two keys are
only added by the diff step of exec_module_impl (lines 366-367). -/
structure IpConfDict where
  name : String
  private_ip_address : Option String
  private_ip_allocation_method : String
  subnet : SubnetDict
  public_ip_address : PipDict
  public_ip_address_id : Option String := none
  public_ip_address_name : Option String := none
deriving DecidableEq, Repr

/-- The dict built by nic_to_dict. -/
structure NicDict where
  id : String
  name : String
  type : String
  location : String
  tags : Tags
  network_security_group : NsgDict
  ip_configuration : IpConfDict
  dns_settings : DnsSettingsData
  mac_address : Option String
  primary : Option Bool
  enable_ip_forwarding : Bool
  provisioning_state : String
  etag : String
deriving DecidableEq, Repr

/-- Successive (key, value) pairs of a segment list. -/
def pairSegments : List String → List (String × String)
  | k :: v :: rest => (k, v) :: pairSegments rest
  | _ => []

/-- Modelled from the spec: azure_id_to_dict lives in the out-of-scope
module_utils collaborator (azure_rm_common); per its uses in these modules
it splits an Azure resource id path into successive (segment, value)
pairs, so that looking up a type segment yields the resource name. -/
def azure_id_to_dict (id : String) : List (String × String) :=
  pairSegments ((id.splitOn "/").filter (fun s => !(s == "")))

/-- azure_rm_networkinterface.py lines 220-264. The source assigns
the subnet id key twice, the second time with the subnet name, so the
surviving value of the subnet id key is the name. -/
def nic_to_dict (nic : NicData) : NicDict :=
  let ipc0 := nic.ip_configurations.headI
  { id := nic.id, name := nic.name, type := nic.type, location := nic.location,
    tags := nic.tags,
    network_security_group :=
      match nic.network_security_group with
      | some nsg => { id := some nsg.id, name := some nsg.name }
      | none => {},
    ip_configuration :=
      { name := ipc0.name,
        private_ip_address := ipc0.private_ip_address,
        private_ip_allocation_method := ipc0.private_ip_allocation_method,
        subnet :=
          match ipc0.subnet with
          | some sub => { id := some sub.name }
          | none => {},
        public_ip_address :=
          match ipc0.public_ip_address with
          | some pip =>
            { id := some pip.id,
              name := (azure_id_to_dict pip.id).lookup "publicIPAddresses" }
          | none => {} },
    dns_settings := nic.dns_settings,
    mac_address := nic.mac_address,
    primary := nic.primary,
    enable_ip_forwarding := nic.enable_ip_forwarding,
    provisioning_state := nic.provisioning_state,
    etag := nic.etag }

/-! ## Submitted resource specifications (what mutations carry) -/

/-- The parameters submitted by the resource group module
(ResourceGroup(location=..., tags=...)). -/
structure RGParams where
  location : String
  tags : Tags
deriving DecidableEq, Repr

/-- An SDK reference object (id, name, location, resource_guid) as built
for PublicIPAddress and NetworkSecurityGroup arguments. -/
structure SdkRef where
  id : String
  name : String
  location : String
  resource_guid : String
deriving DecidableEq, Repr

/-- The single ip configuration of a submitted NetworkInterface. -/
structure NicIpConfSpec where
  name : String
  private_ip_allocation_method : String
  subnet_id : Option String := none
  private_ip_address : Option String := none
  public_ip_address : Option SdkRef := none
deriving DecidableEq, Repr

/-- A submitted NetworkInterface specification. -/
structure NicSpec where
  location : String
  name : String
  tags : Tags
  ip_configuration : NicIpConfSpec
  network_security_group : Option SdkRef := none
deriving DecidableEq, Repr

/-- The OSProfile of a submitted VirtualMachine. -/
structure OSProfileSpec where
  admin_username : Option String
  admin_password : Option String
  computer_name : Option String
deriving DecidableEq, Repr

/-- The ImageReference of a submitted VirtualMachine. -/
structure ImageReferenceSpec where
  publisher : Option String
  offer : Option String
  sku : Option String
  version : String
deriving DecidableEq, Repr

/-- The OSDisk of a submitted VirtualMachine. -/
structure OSDiskSpec where
  name : String
  vhd_uri : String
  create_option : String
  caching : String
deriving DecidableEq, Repr

/-- A submitted VirtualMachine specification. -/
structure VmSpec where
  location : String
  name : String
  tags : Tags
  os_profile : OSProfileSpec
  vm_size : String
  os_disk : OSDiskSpec
  image_reference : ImageReferenceSpec
  network_interface_ids : List String
deriving DecidableEq, Repr

/-- A provider mutation call, as recorded in the trace. -/
inductive Mut
  | createOrUpdateResourceGroup (name : String) (params : RGParams)
  | deleteResourceGroup (name : String)
  | createOrUpdateNic (resourceGroup : String) (name : String) (spec : NicSpec)
  | deleteNic (resourceGroup : String) (name : String)
  | createOrUpdateVirtualMachine (resourceGroup : String) (name : String) (spec : VmSpec)
  | deleteVirtualMachine (resourceGroup : String) (name : String)
  | deletePublicIp (resourceGroup : String) (name : String)
  | deleteBlob (account : String) (container : String) (blob : String)
deriving DecidableEq, Repr

/-- Whether a mutation is a virtual machine create_or_update call. -/
def isCreateVm : Mut → Bool
  | Mut.createOrUpdateVirtualMachine _ _ _ => true
  | _ => false

/-- The Azure provider as visible to the modules: lookup tables keyed the
way each get call addresses resources. Collaborator boundary
(spec section 6): a missing key is the NotFound signal. -/
structure Provider where
  resourceGroups : List (String × RGData)
  networkInterfaces : List ((String × String) × NicData)
  publicIPs : List ((String × String) × PipData)
  securityGroups : List ((String × String) × NsgData)
  subnets : List ((String × String × String) × SubnetData)
  virtualMachines : List ((String × String) × VmData)
  vmSizes : List (String × List String)
  images : List ((String × String × String × String) × List String)
  storageAccounts : List (String × String)
deriving DecidableEq, Repr

/-! ## azure_rm_resourcegroup.py -/

namespace AzureRMResourceGroup

/-- The module arguments after AnsibleModule validation (the
log_path argument only configures logging and is not modelled). -/
structure Args where
  name : String
  state : RState
  location : Option String
  tags : Tags
  force : Bool
deriving DecidableEq, Repr

/-- The value of self.results.results: initially an empty dict, then the
resource dict, or the Deleted sentinel after a delete. -/
inductive Results
  | empty
  | rg (d : RGDict)
  | deleted
deriving DecidableEq, Repr

/-- What the decision step (fetch + diff) of exec_module_impl computes:
the changed flag, the diffed results value, and the fetched object. -/
structure Decision where
  changed : Bool
  results : Results
  rgFound : Option RGData
deriving DecidableEq, Repr

/-- The externally observable module result (the check_mode echo field
is constant per invocation and omitted). -/
structure ModuleResult where
  changed : Bool
  results : Results
deriving DecidableEq, Repr

/-- Failure message of lines 199-200 (it formats the desired location). -/
def location_moved_msg (a : Args) : String :=
  "Resource group " ++ a.name ++ " already exists in location " ++
    optStr a.location ++ " and cannot be moved."

/-- Failure message of lines 223-224. -/
def location_required_msg : String :=
  "Parameter error: location is required when creating a resource group."

/-- Lines 176-209 of azure_rm_resourcegroup.py: fetch the resource group
and compute changed and the diffed results dict. check_provisioning_state
is a collaborator modelled as succeeding. -/
def decide_phase (a : Args) (p : Provider) : Except String Decision :=
  match p.resourceGroups.lookup a.name with
  | some rg =>
    let results := resource_group_to_dict rg
    match a.state with
    | RState.absent =>
      Except.ok { changed := true, results := Results.rg results, rgFound := some rg }
    | RState.present =>
      let tagsDiffer := !(tagsEq results.tags a.tags)
      let changed := a.force || tagsDiffer
      let results := if tagsDiffer then { results with tags := a.tags } else results
      if !(locEq results.location a.location) then
        Except.error (location_moved_msg a)
      else
        Except.ok { changed := changed, results := Results.rg results, rgFound := some rg }
  | none =>
    match a.state with
    | RState.present =>
      Except.ok { changed := true, results := Results.empty, rgFound := none }
    | RState.absent =>
      Except.ok { changed := false, results := Results.empty, rgFound := none }

/-- Collaborator boundary (spec section 6): create_or_update is modelled
as echoing the submitted parameters back as the stored resource. -/
def create_or_update_echo (name : String) (params : RGParams) : RGData :=
  { id := "/resourceGroups/" ++ name, name := name,
    location := params.location, tags := params.tags,
    provisioning_state := "Succeeded" }

/-- Lines 214-237: the apply step, entered only outside check mode.
Line 230 subscripts the fetched SDK ResourceGroup object
(rg[...] on a model object), which raises TypeError in Python; that
branch is therefore an abort. -/
def apply_phase (a : Args) (d : Decision) : Except String Results × List Mut :=
  if d.changed then
    let step1 : Option RGData × List Mut :=
      if a.state = RState.present ∧ a.force = true then
        (none, [Mut.deleteResourceGroup a.name])
      else (d.rgFound, [])
    match a.state with
    | RState.present =>
      match step1.1 with
      | none =>
        if !(strTruthy a.location) then
          (Except.error location_required_msg, step1.2)
        else
          let params : RGParams := { location := a.location.getD "", tags := a.tags }
          (Except.ok (Results.rg (resource_group_to_dict (create_or_update_echo a.name params))),
           step1.2 ++ [Mut.createOrUpdateResourceGroup a.name params])
      | some _ =>
        (Except.error "TypeError: ResourceGroup object is not subscriptable", step1.2)
    | RState.absent =>
      (Except.ok Results.deleted, step1.2 ++ [Mut.deleteResourceGroup a.name])
  else
    (Except.ok d.results, [])

/-- Lines 174-238: the whole exec_module_impl, with the check-mode
short circuit between the decision step and the apply step. -/
def exec_module_impl (a : Args) (p : Provider) (check_mode : Bool) :
    Except String ModuleResult × List Mut :=
  match decide_phase a p with
  | Except.error e => (Except.error e, [])
  | Except.ok d =>
    if check_mode then
      (Except.ok { changed := d.changed, results := d.results }, [])
    else
      match apply_phase a d with
      | (Except.error e, t) => (Except.error e, t)
      | (Except.ok r, t) => (Except.ok { changed := d.changed, results := r }, t)

end AzureRMResourceGroup

/-! ## azure_rm_networkinterface.py -/

namespace AzureRMNetworkInterface

/-- The module arguments after AnsibleModule validation. -/
structure Args where
  resource_group : String
  name : String
  location : Option String
  security_group_name : Option String
  state : RState
  private_ip_address : Option String
  private_ip_allocation_method : String
  public_ip_address_name : Option String
  subnet_name : Option String
  virtual_network_name : Option String
  tags : Tags
deriving DecidableEq, Repr

/-- The value of self.results.results. -/
inductive Results
  | empty
  | nic (d : NicDict)
  | deleted
deriving DecidableEq, Repr

/-- What the decision step of exec_module_impl computes, together with
the references it resolved for later use by the apply step. -/
structure Decision where
  changed : Bool
  results : Results
  nicFound : Option NicData
  location : String
  subnet : Option SubnetData
  public_ip : Option PipData
  nsg : Option NsgData
deriving DecidableEq, Repr

/-- The externally observable module result. -/
structure ModuleResult where
  changed : Bool
  results : Results
deriving DecidableEq, Repr

/-- NAME_PATTERN of line 217: a lowercase letter, then 1 to 61 characters
among lowercase letters, digits and hyphen, then a lowercase letter or
digit. -/
def name_matches (s : String) : Bool :=
  match s.toList with
  | c :: rest =>
    match rest.getLast? with
    | some lastc =>
      c.isLower && (lastc.isLower || lastc.isDigit) &&
      (rest.dropLast.all (fun m => m.isLower || m.isDigit || m == '-')) &&
      decide (1 ≤ rest.dropLast.length) && decide (rest.dropLast.length ≤ 61)
    | none => false
  | [] => false

/-- Lines 516-524: get_subnet, a lookup that turns NotFound into a
parameter error (calling with a missing name behaves the same way). -/
def get_subnet (a : Args) (p : Provider) : Except String SubnetData :=
  match a.virtual_network_name, a.subnet_name with
  | some vn, some sn =>
    match p.subnets.lookup (a.resource_group, vn, sn) with
    | some sub => Except.ok sub
    | none =>
      Except.error ("Parameter error: subnet " ++ sn ++
        " not found in virtual network " ++ vn)
  | _, _ =>
    Except.error ("Parameter error: subnet " ++ optStr a.subnet_name ++
      " not found in virtual network " ++ optStr a.virtual_network_name)

/-- Lines 508-514: get_public_ip_address. -/
def get_public_ip_address (a : Args) (p : Provider) (name : String) :
    Except String PipData :=
  match p.publicIPs.lookup (a.resource_group, name) with
  | some pip => Except.ok pip
  | none =>
    Except.error ("Parameter error: public ip address " ++ name ++
      " not found in resource group " ++ a.resource_group)

/-- Lines 526-532: get_security_group. -/
def get_security_group (a : Args) (p : Provider) (name : String) :
    Except String NsgData :=
  match p.securityGroups.lookup (a.resource_group, name) with
  | some nsg => Except.ok nsg
  | none =>
    Except.error ("Parameter error: network security group " ++ name ++
      " not found.")

/-- Lines 313-400 of azure_rm_networkinterface.py: resolve defaults and
references, fetch the interface and compute the change set. -/
def decide_phase (a : Args) (p : Provider) : Except String Decision :=
  match p.resourceGroups.lookup a.resource_group with
  | none => Except.error ("Error retrieving resource group " ++ a.resource_group)
  | some rgObj =>
    let location := if strTruthy a.location then a.location.getD "" else rgObj.location
    if !(name_matches a.name) then
      Except.error ("Parameter error: name must begin with a letter or number, " ++
        "end with a letter or number and contain at least one number.")
    else
      let refs : Except String (Option SubnetData × Option PipData × Option NsgData) :=
        match a.state with
        | RState.present =>
          match get_subnet a p with
          | Except.error e => Except.error e
          | Except.ok sub =>
            match (match a.public_ip_address_name with
                   | some n => (get_public_ip_address a p n).map some
                   | none => Except.ok none) with
            | Except.error e => Except.error e
            | Except.ok pub =>
              match (match a.security_group_name with
                     | some n => (get_security_group a p n).map some
                     | none => Except.ok none) with
              | Except.error e => Except.error e
              | Except.ok nsg => Except.ok (some sub, pub, nsg)
        | RState.absent => Except.ok (none, none, none)
      match refs with
      | Except.error e => Except.error e
      | Except.ok (sub, pub, nsg) =>
        match p.networkInterfaces.lookup (a.resource_group, a.name) with
        | some nic =>
          let results := nic_to_dict nic
          match a.state with
          | RState.present =>
            -- lines 350-354: the tags diff runs only when the desired
            -- tags value is truthy, so empty or absent desired tags are
            -- never compared against the existing tags
            let s1 : Bool × NicDict :=
              if tagsTruthy a.tags && !(tagsEq results.tags a.tags) then
                (true, { results with tags := a.tags })
              else (false, results)
            let s2 : Bool × NicDict :=
              if strTruthy a.private_ip_address &&
                 !(s1.2.ip_configuration.private_ip_address == a.private_ip_address) then
                (true, { s1.2 with ip_configuration :=
                  { s1.2.ip_configuration with private_ip_address := a.private_ip_address } })
              else (false, s1.2)
            let s3 : Bool × NicDict :=
              match a.public_ip_address_name, pub with
              | some _, some pubIp =>
                if !(s2.2.ip_configuration.public_ip_address.id == some pubIp.id) then
                  (true, { s2.2 with ip_configuration :=
                    { s2.2.ip_configuration with
                      public_ip_address_id := some pubIp.id,
                      public_ip_address_name := some pubIp.name } })
                else (false, s2.2)
              | _, _ => (false, s2.2)
            let s4 : Bool × NicDict :=
              if !(s3.2.ip_configuration.private_ip_allocation_method ==
                   a.private_ip_allocation_method) then
                (true, { s3.2 with ip_configuration :=
                  { s3.2.ip_configuration with
                    private_ip_allocation_method := a.private_ip_allocation_method } })
              else (false, s3.2)
            Except.ok { changed := s1.1 || s2.1 || s3.1 || s4.1,
                        results := Results.nic s4.2, nicFound := some nic,
                        location := location, subnet := sub, public_ip := pub, nsg := nsg }
          | RState.absent =>
            Except.ok { changed := true, results := Results.nic results,
                        nicFound := some nic, location := location,
                        subnet := sub, public_ip := pub, nsg := nsg }
        | none =>
          match a.state with
          | RState.present =>
            Except.ok { changed := true, results := Results.empty, nicFound := none,
                        location := location, subnet := sub, public_ip := pub, nsg := nsg }
          | RState.absent =>
            Except.ok { changed := false, results := Results.empty, nicFound := none,
                        location := location, subnet := sub, public_ip := pub, nsg := nsg }

/-- Collaborator boundary (spec section 6): create_or_update is modelled
as echoing the submitted specification back as the stored interface. -/
def create_or_update_echo (a : Args) (spec : NicSpec) : NicData :=
  { id := "/resourceGroups/" ++ a.resource_group ++ "/networkInterfaces/" ++ spec.name,
    name := spec.name, type := "Microsoft.Network/networkInterfaces",
    location := spec.location, tags := spec.tags,
    network_security_group := spec.network_security_group.map (fun g => ⟨g.id, g.name⟩),
    ip_configurations :=
      [{ name := spec.ip_configuration.name,
         private_ip_address := spec.ip_configuration.private_ip_address,
         private_ip_allocation_method := spec.ip_configuration.private_ip_allocation_method,
         subnet := spec.ip_configuration.subnet_id.map (fun i => ⟨i, i⟩),
         public_ip_address := spec.ip_configuration.public_ip_address.map (fun r => ⟨r.id⟩) }],
    dns_settings := ⟨[], [], none, none⟩,
    mac_address := none, primary := none, enable_ip_forwarding := false,
    provisioning_state := "Succeeded", etag := "" }

/-- Lines 405-477: the apply step, entered only outside check mode. -/
def apply_phase (a : Args) (p : Provider) (d : Decision) :
    Except String Results × List Mut :=
  if d.changed then
    match a.state with
    | RState.present =>
      match d.nicFound with
      | none =>
        -- lines 408-435: create a new interface from the desired state
        match d.subnet with
        | none => (Except.error "subnet not resolved", [])
        | some sub =>
          let spec : NicSpec :=
            { location := d.location, name := a.name, tags := a.tags,
              ip_configuration :=
                { name := "default",
                  private_ip_allocation_method := a.private_ip_allocation_method,
                  subnet_id := some sub.id,
                  private_ip_address :=
                    if strTruthy a.private_ip_address then a.private_ip_address else none,
                  public_ip_address :=
                    match a.public_ip_address_name, d.public_ip with
                    | some _, some pubIp =>
                      some ⟨pubIp.id, pubIp.name, pubIp.location, pubIp.resource_guid⟩
                    | _, _ => none },
              network_security_group :=
                match a.security_group_name, d.nsg with
                | some _, some nsg => some ⟨nsg.id, nsg.name, nsg.location, nsg.resource_guid⟩
                | _, _ => none }
          (Except.ok (Results.nic (nic_to_dict (create_or_update_echo a spec))),
           [Mut.createOrUpdateNic a.resource_group a.name spec])
      | some _ =>
        -- lines 437-466: update, rebuilt from the diffed results dict
        match d.results with
        | Results.nic rdict =>
          match d.subnet with
          | none => (Except.error "subnet not resolved", [])
          | some sub =>
            let pubRes : Except String (Option SdkRef) :=
              match rdict.ip_configuration.public_ip_address.id with
              | some _ =>
                match get_public_ip_address a p
                    (optStr rdict.ip_configuration.public_ip_address.name) with
                | Except.error e => Except.error e
                | Except.ok pubIp =>
                  Except.ok (some ⟨pubIp.id, pubIp.name, pubIp.location, pubIp.resource_guid⟩)
              | none => Except.ok none
            match pubRes with
            | Except.error e => (Except.error e, [])
            | Except.ok pubRef =>
              let nsgRes : Except String (Option SdkRef) :=
                match rdict.network_security_group.id with
                | some _ =>
                  match get_security_group a p (optStr rdict.network_security_group.name) with
                  | Except.error e => Except.error e
                  | Except.ok g => Except.ok (some ⟨g.id, g.name, g.location, g.resource_guid⟩)
                | none => Except.ok none
              match nsgRes with
              | Except.error e => (Except.error e, [])
              | Except.ok nsgRef =>
                let spec : NicSpec :=
                  { location := rdict.location, name := rdict.name, tags := rdict.tags,
                    ip_configuration :=
                      { name := rdict.ip_configuration.name,
                        private_ip_allocation_method :=
                          rdict.ip_configuration.private_ip_allocation_method,
                        subnet_id := some sub.id,
                        private_ip_address :=
                          if strTruthy rdict.ip_configuration.private_ip_address then
                            rdict.ip_configuration.private_ip_address
                          else none,
                        public_ip_address := pubRef },
                    network_security_group := nsgRef }
                (Except.ok (Results.nic (nic_to_dict (create_or_update_echo a spec))),
                 [Mut.createOrUpdateNic a.resource_group a.name spec])
        | _ => (Except.error "unexpected results value", [])
    | RState.absent =>
      (Except.ok Results.deleted, [Mut.deleteNic a.resource_group a.name])
  else
    (Except.ok d.results, [])

/-- Lines 313-479: the whole exec_module_impl, with the check-mode
short circuit between the decision step and the apply step. -/
def exec_module_impl (a : Args) (p : Provider) (check_mode : Bool) :
    Except String ModuleResult × List Mut :=
  match decide_phase a p with
  | Except.error e => (Except.error e, [])
  | Except.ok d =>
    if check_mode then
      (Except.ok { changed := d.changed, results := d.results }, [])
    else
      match apply_phase a p d with
      | (Except.error e, t) => (Except.error e, t)
      | (Except.ok r, t) => (Except.ok { changed := d.changed, results := r }, t)

end AzureRMNetworkInterface

/-! ## azure_rm_virtualmachine.py -/

namespace AzureRMVirtualMachine

/-- The module arguments after AnsibleModule validation (required_if for
state started is enforced by the argument-spec collaborator). -/
structure Args where
  resource_group : String
  name : String
  state : VmState
  location : Option String
  short_hostname : Option String
  vm_size : String
  force : Bool
  admin_username : Option String
  admin_password : Option String
  ssh_password : Bool
  ssh_public_key : Option String
  image_publisher : Option String
  image_offer : Option String
  image_sku : Option String
  image_version : String
  storage_account_name : Option String
  storage_container_name : String
  storage_blob_name : Option String
  os_disk_caching : String
  os_type : String
  network_interface_names : List String
  delete_network_interfaces : Bool
  delete_virtual_storage : Bool
  delete_public_ips : Bool
  tags : Tags
deriving DecidableEq, Repr

/-- The value of self.results.results: the decision step never fills the
results dict (line 203 stays empty), only create_vm does. -/
inductive Results
  | empty
  | created (spec : VmSpec)
deriving DecidableEq, Repr

/-- What the decision step of exec_module_impl computes, together with
the values it resolved for later use by the apply step. -/
structure Decision where
  changed : Bool
  vmFound : Option VmData
  location : String
  storage_blob_name : String
  image_version : String
  network_interface_ids : List String
deriving DecidableEq, Repr

/-- The externally observable module result. -/
structure ModuleResult where
  changed : Bool
  results : Results
deriving DecidableEq, Repr

/-- Lines 488-500: membership of the requested size in the sizes listed
for the location. The CALLER of this function (line 214) discards its
return value. -/
def vm_size_is_valid (a : Args) (p : Provider) (location : String) : Bool :=
  ((p.vmSizes.lookup location).getD []).contains a.vm_size

/-- Lines 453-470: resolve the requested image version name against the
versions listed for (location, publisher, offer, sku); latest picks the
last listed version. A missing publisher, offer or sku makes the listing
call fail, which surfaces as no resolved version. -/
def get_image_version (a : Args) (p : Provider) (location : String) : Option String :=
  match a.image_publisher, a.image_offer, a.image_sku with
  | some pub, some off, some sku =>
    let versions := (p.images.lookup (location, pub, off, sku)).getD []
    if versions.length > 0 then
      if a.image_version == "latest" then versions.getLast?
      else if versions.contains a.image_version then some a.image_version
      else none
    else none
  | _, _, _ => none

/-- Lines 216-218: fetch each named network interface (fatal if any is
missing) and collect the reference ids. -/
def lookup_nics (p : Provider) (rg : String) : List String → Except String (List String)
  | [] => Except.ok []
  | n :: rest =>
    match p.networkInterfaces.lookup (rg, n) with
    | none => Except.error ("Error fetching network interface " ++ n)
    | some nic =>
      match lookup_nics p rg rest with
      | Except.error e => Except.error e
      | Except.ok ids => Except.ok (nic.id :: ids)

/-- Lines 208-210: self.location defaults to the location of the
resource group when absent. -/
def resolve_location (a : Args) (rgObj : RGData) : String :=
  if strTruthy a.location then a.location.getD "" else rgObj.location

/-- Lines 212-233: the parameter checks and resolutions performed before
the fetch when the requested state is started, yielding the resolved
blob name, image version and interface ids. -/
def started_prechecks (a : Args) (p : Provider) (location : String) :
    Except String (String × String × List String) :=
  -- line 214: the validation result is computed and DISCARDED
  let _sizeOk := vm_size_is_valid a p location
  match lookup_nics p a.resource_group a.network_interface_names with
  | Except.error e => Except.error e
  | Except.ok nicIds =>
    let blob :=
      if strTruthy a.storage_blob_name then a.storage_blob_name.getD ""
      else a.name ++ ".vsd"
    match get_image_version a p location with
    | none =>
      Except.error ("Error could not find image " ++ optStr a.image_publisher ++
        " " ++ optStr a.image_offer ++ " " ++ optStr a.image_sku ++
        " " ++ a.image_version)
    | some resolved =>
      let version := if a.image_version == "latest" then resolved else a.image_version
      match a.storage_account_name with
      | some acct =>
        if p.storageAccounts.contains (a.resource_group, acct) then
          Except.ok (blob, version, nicIds)
        else Except.error ("Error fetching storage account " ++ acct)
      | none => Except.error "Error fetching storage account None"

/-- Lines 197-262 of azure_rm_virtualmachine.py: resolve defaults and
references, fetch the machine and compute the changed flag. When the
machine exists with state started and no force, the source only logs a
TODO (lines 247-249): no attribute is compared. -/
def decide_phase (a : Args) (p : Provider) : Except String Decision :=
  match p.resourceGroups.lookup a.resource_group with
  | none => Except.error ("Error retrieving resource group " ++ a.resource_group)
  | some rgObj =>
    match (match a.state with
           | VmState.started => started_prechecks a p (resolve_location a rgObj)
           | _ => Except.ok (a.name ++ ".vsd", a.image_version, [])) with
    | Except.error e => Except.error e
    | Except.ok (blob, version, nicIds) =>
      match p.virtualMachines.lookup (a.resource_group, a.name) with
      | some vm =>
        let changed :=
          match a.state with
          | VmState.started => a.force
          | VmState.stopped => false
          | VmState.absent => true
        Except.ok { changed := changed, vmFound := some vm,
                    location := resolve_location a rgObj,
                    storage_blob_name := blob, image_version := version,
                    network_interface_ids := nicIds }
      | none =>
        Except.ok { changed := (a.state == VmState.started), vmFound := none,
                    location := resolve_location a rgObj, storage_blob_name := blob,
                    image_version := version, network_interface_ids := nicIds }

/-- Message of the NameError raised when delete_vm reads the name vm. -/
def vm_not_defined_msg : String := "NameError: name vm is not defined"

/-- Lines 356-409: delete the machine and cascade to dependents. The
capture phase reads the name vm, a local of exec_module_impl that is NOT
in scope inside delete_vm: in Python both capture branches (line 364 for
vhds, line 373 for interfaces) raise NameError before anything is
deleted. When no capture branch is entered the lists stay empty, so the
public ip loop of line 407 deletes nothing, and (line 398) the
delete_virtual_storage call would in any case hit the instance attribute
of that name, a Bool, not the method. -/
def delete_vm (a : Args) : Except String Unit × List Mut :=
  let vhd_uris : List String := []
  let nic_names : List String := []
  let pip_names : List String := []
  if a.delete_virtual_storage then
    (Except.error vm_not_defined_msg, [])
  else if a.delete_network_interfaces then
    (Except.error vm_not_defined_msg, [])
  else
    let t0 := [Mut.deleteVirtualMachine a.resource_group a.name]
    let t1 := t0 ++ vhd_uris.map (fun u => Mut.deleteBlob u u u)
    let t2 := t1 ++ nic_names.map (fun n => Mut.deleteNic a.resource_group n)
    let t3 := t2 ++
      (if a.delete_public_ips then pip_names.map (fun n => Mut.deletePublicIp a.resource_group n)
       else [])
    (Except.ok (), t3)

/-- Lines 289-329: the VirtualMachine resource built for creation. -/
def build_vm_resource (a : Args) (d : Decision) : VmSpec :=
  { location := d.location, name := a.name, tags := a.tags,
    os_profile := { admin_username := a.admin_username,
                    admin_password := a.admin_password,
                    computer_name := a.short_hostname },
    vm_size := a.vm_size,
    os_disk := { name := d.storage_blob_name,
                 vhd_uri := "https://" ++ optStr a.storage_account_name ++
                   ".blob.core.windows.net/" ++ a.storage_container_name ++
                   "/" ++ d.storage_blob_name ++ ".vhd",
                 create_option := "fromImage",
                 caching := a.os_disk_caching },
    image_reference := { publisher := a.image_publisher, offer := a.image_offer,
                         sku := a.image_sku, version := d.image_version },
    network_interface_ids := d.network_interface_ids }

/-- Lines 267-354: the apply step, entered only outside check mode. Note
that the source has NO apply branch for state absent or stopped: a
changed absent run performs no provider call at all. -/
def apply_phase (a : Args) (d : Decision) : Except String Results × List Mut :=
  if d.changed then
    if a.state = VmState.started ∧ a.force = true then
      match delete_vm a with
      | (Except.error e, t) => (Except.error e, t)
      | (Except.ok _, t) =>
        -- after the forced delete the local vm is None, so the started
        -- branch below always creates
        let spec := build_vm_resource a d
        (Except.ok (Results.created spec),
         t ++ [Mut.createOrUpdateVirtualMachine a.resource_group a.name spec])
    else if a.state = VmState.started then
      match d.vmFound with
      | none =>
        let spec := build_vm_resource a d
        (Except.ok (Results.created spec),
         [Mut.createOrUpdateVirtualMachine a.resource_group a.name spec])
      | some _ => (Except.ok Results.empty, [])
    else
      (Except.ok Results.empty, [])
  else
    (Except.ok Results.empty, [])

/-- Lines 197-354: the whole exec_module_impl, with the check-mode
short circuit between the decision step and the apply step. -/
def exec_module_impl (a : Args) (p : Provider) (check_mode : Bool) :
    Except String ModuleResult × List Mut :=
  match decide_phase a p with
  | Except.error e => (Except.error e, [])
  | Except.ok d =>
    if check_mode then
      (Except.ok { changed := d.changed, results := Results.empty }, [])
    else
      match apply_phase a d with
      | (Except.error e, t) => (Except.error e, t)
      | (Except.ok r, t) => (Except.ok { changed := d.changed, results := r }, t)

end AzureRMVirtualMachine

/-! ## Claims -/

/-- C1: Dry-run purity: for every desired state and provider state, an
invocation with check mode on performs no provider mutation (no
create_or_update and no delete call in any of the three modules), and
the changed flag and diffed results it returns are exactly those
computed by the decision step, which is the same decision step a
non-check-mode run executes. -/
theorem c1_dry_run_purity :
    ∀ (ra : AzureRMResourceGroup.Args) (na : AzureRMNetworkInterface.Args)
      (va : AzureRMVirtualMachine.Args) (p : Provider),
    (AzureRMResourceGroup.exec_module_impl ra p true).2 = [] ∧
    (AzureRMResourceGroup.exec_module_impl ra p true).1 =
      (AzureRMResourceGroup.decide_phase ra p).map
        (fun d => { changed := d.changed, results := d.results }) ∧
    (AzureRMNetworkInterface.exec_module_impl na p true).2 = [] ∧
    (AzureRMNetworkInterface.exec_module_impl na p true).1 =
      (AzureRMNetworkInterface.decide_phase na p).map
        (fun d => { changed := d.changed, results := d.results }) ∧
    (AzureRMVirtualMachine.exec_module_impl va p true).2 = [] ∧
    (AzureRMVirtualMachine.exec_module_impl va p true).1 =
      (AzureRMVirtualMachine.decide_phase va p).map
        (fun d => { changed := d.changed,
                    results := AzureRMVirtualMachine.Results.empty }) := by
  intro ra na va p
  refine ⟨?_, ?_, ?_, ?_, ?_, ?_⟩
  · unfold AzureRMResourceGroup.exec_module_impl
    cases AzureRMResourceGroup.decide_phase ra p <;> rfl
  · unfold AzureRMResourceGroup.exec_module_impl
    cases AzureRMResourceGroup.decide_phase ra p <;> rfl
  · unfold AzureRMNetworkInterface.exec_module_impl
    cases AzureRMNetworkInterface.decide_phase na p <;> rfl
  · unfold AzureRMNetworkInterface.exec_module_impl
    cases AzureRMNetworkInterface.decide_phase na p <;> rfl
  · unfold AzureRMVirtualMachine.exec_module_impl
    cases AzureRMVirtualMachine.decide_phase va p <;> rfl
  · unfold AzureRMVirtualMachine.exec_module_impl
    cases AzureRMVirtualMachine.decide_phase va p <;> rfl

/-! Concrete scenario for C2: an existing interface nic003 carrying tags
(a, 1), reconciled with state present and an absent (then empty) desired
tag set, everything else matching the observed interface. -/

/-- The existing interface of the C2 scenario. -/
def c2nic : NicData :=
  { id := "/resourceGroups/Testing/networkInterfaces/nic003", name := "nic003",
    type := "Microsoft.Network/networkInterfaces", location := "eastus2",
    tags := some [("a", "1")], network_security_group := none,
    ip_configurations :=
      [{ name := "default", private_ip_address := some "10.1.0.10",
         private_ip_allocation_method := "Dynamic", subnet := none,
         public_ip_address := none }],
    dns_settings := ⟨[], [], none, none⟩, mac_address := none, primary := none,
    enable_ip_forwarding := false, provisioning_state := "Succeeded", etag := "" }

/-- The provider state of the C2 scenario. -/
def c2prov : Provider :=
  { resourceGroups :=
      [("Testing", { id := "/resourceGroups/Testing", name := "Testing",
                     location := "eastus2", tags := none,
                     provisioning_state := "Succeeded" })],
    networkInterfaces := [(("Testing", "nic003"), c2nic)],
    publicIPs := [],
    securityGroups := [(("Testing", "secgroup001"),
      { id := "/nsg/secgroup001", name := "secgroup001", location := "eastus2",
        resource_guid := "g1" })],
    subnets := [(("Testing", "vnet001", "subnet001"),
      { id := "/vnet001/subnets/subnet001", name := "subnet001" })],
    virtualMachines := [], vmSizes := [], images := [], storageAccounts := [] }

/-- The C2 module arguments, parameterized by the desired tags value. -/
def c2args (t : Tags) : AzureRMNetworkInterface.Args :=
  { resource_group := "Testing", name := "nic003", location := none,
    security_group_name := some "secgroup001", state := RState.present,
    private_ip_address := none, private_ip_allocation_method := "Dynamic",
    public_ip_address_name := none, subnet_name := some "subnet001",
    virtual_network_name := some "vnet001", tags := t }

/-- C2: evaluation at the failing input. With observed tags (a, 1) and a
desired tag set that is absent (None) or empty, the network interface
module reports changed equal to false and leaves the existing tags in
place, issuing no mutation: the truthiness guard of line 350 skips the
tags diff entirely, contradicting the replace-not-merge semantics the
module documentation states and the claim asserts. -/
theorem c2_empty_desired_tags_not_cleared :
    (AzureRMNetworkInterface.exec_module_impl (c2args none) c2prov false =
      (Except.ok { changed := false,
                   results := AzureRMNetworkInterface.Results.nic (nic_to_dict c2nic) },
       [])) ∧
    (AzureRMNetworkInterface.exec_module_impl (c2args (some [])) c2prov false =
      (Except.ok { changed := false,
                   results := AzureRMNetworkInterface.Results.nic (nic_to_dict c2nic) },
       [])) := by
  exact ⟨rfl, rfl⟩

/-! Concrete scenario for C3: creating a machine whose requested size
Standard_D1 is not among the sizes listed for the target location. -/

/-- The existing interface referenced by the C3 machine. -/
def c3nic : NicData :=
  { id := "/resourceGroups/Testing/networkInterfaces/nic01", name := "nic01",
    type := "Microsoft.Network/networkInterfaces", location := "eastus",
    tags := none, network_security_group := none,
    ip_configurations :=
      [{ name := "default", private_ip_address := none,
         private_ip_allocation_method := "Dynamic", subnet := none,
         public_ip_address := none }],
    dns_settings := ⟨[], [], none, none⟩, mac_address := none, primary := none,
    enable_ip_forwarding := false, provisioning_state := "Succeeded", etag := "" }

/-- The provider state of the C3 scenario: the location lists only the
sizes Standard_A0 and Standard_A1. -/
def c3prov : Provider :=
  { resourceGroups :=
      [("Testing", { id := "/resourceGroups/Testing", name := "Testing",
                     location := "eastus", tags := none,
                     provisioning_state := "Succeeded" })],
    networkInterfaces := [(("Testing", "nic01"), c3nic)],
    publicIPs := [], securityGroups := [], subnets := [], virtualMachines := [],
    vmSizes := [("eastus", ["Standard_A0", "Standard_A1"])],
    images := [(("eastus", "OpenLogic", "CentOS", "7.1"), ["7.1.20160308"])],
    storageAccounts := [("Testing", "testaccount001")] }

/-- The C3 module arguments: create testvm002 with size Standard_D1. -/
def c3args : AzureRMVirtualMachine.Args :=
  { resource_group := "Testing", name := "testvm002", state := VmState.started,
    location := none, short_hostname := some "testvm", vm_size := "Standard_D1",
    force := false, admin_username := some "chouseknecht",
    admin_password := some "Password123", ssh_password := true,
    ssh_public_key := none, image_publisher := some "OpenLogic",
    image_offer := some "CentOS", image_sku := some "7.1",
    image_version := "latest", storage_account_name := some "testaccount001",
    storage_container_name := "vhds", storage_blob_name := none,
    os_disk_caching := "ReadOnly", os_type := "linux",
    network_interface_names := ["nic01"], delete_network_interfaces := false,
    delete_virtual_storage := false, delete_public_ips := false, tags := none }

/-- C3: evaluation at the failing input. The requested size is not
available in the location (vm_size_is_valid computes false), yet the
invocation does not fail: it proceeds to issue the create_or_update
mutation, because line 214 discards the validation result. -/
theorem c3_invalid_vm_size_still_creates :
    AzureRMVirtualMachine.vm_size_is_valid c3args c3prov "eastus" = false ∧
    isFatal (AzureRMVirtualMachine.exec_module_impl c3args c3prov false).1 = false ∧
    (AzureRMVirtualMachine.exec_module_impl c3args c3prov false).2.any isCreateVm = true := by
  exact ⟨rfl, rfl, rfl⟩

/-- The C4 arguments: cascading delete with interface cleanup requested,
where the failing deletion of one dependent resource is supposed to
leave the remaining cascade steps attempted. -/
def c4args : AzureRMVirtualMachine.Args :=
  { c3args with name := "testvm004", state := VmState.absent,
                delete_network_interfaces := true }

/-- C4: evaluation at the failing input. With interface cleanup
requested, delete_vm aborts (the capture step reads the out-of-scope
name vm) and its mutation trace is empty: no dependent deletion is ever
attempted, so a failure of one dependent deletion can never be followed
by the remaining cascade steps; moreover each deletion helper calls fail
on error (lines 418-426), the continue-on-error design being an
unimplemented TODO (line 395). -/
theorem c4_cascade_never_continues :
    AzureRMVirtualMachine.delete_vm c4args =
      (Except.error AzureRMVirtualMachine.vm_not_defined_msg, []) := rfl

/-- The C5 arguments: cascading delete with both interface and public ip
cleanup requested. -/
def c5args : AzureRMVirtualMachine.Args :=
  { c3args with name := "testvm005", state := VmState.absent,
                delete_network_interfaces := true, delete_public_ips := true }

/-- C5: evaluation at the failing input. With delete_nics and
delete_public_ips both requested, delete_vm aborts while capturing the
interface names (the out-of-scope name vm, line 373) with an empty
mutation trace: the interface and public ip identifiers are never
captured, the machine itself is never deleted, and no ordered cascade of
dependent deletions takes place. -/
theorem c5_cascade_order_never_reached :
    AzureRMVirtualMachine.delete_vm c5args =
      (Except.error AzureRMVirtualMachine.vm_not_defined_msg, []) := rfl

/-- Inversion helper: when the machine exists and the decision step
succeeds, the changed flag it computed is exactly the force flag
(for state started). -/
theorem vm_decide_changed_of_found (a : AzureRMVirtualMachine.Args) (p : Provider)
    (vm : VmData) (d : AzureRMVirtualMachine.Decision)
    (hfound : p.virtualMachines.lookup (a.resource_group, a.name) = some vm)
    (hstate : a.state = VmState.started)
    (hd : AzureRMVirtualMachine.decide_phase a p = Except.ok d) :
    d.changed = a.force := by
  unfold AzureRMVirtualMachine.decide_phase at hd
  cases hrg : p.resourceGroups.lookup a.resource_group
  · simp only [hrg] at hd
    exact absurd hd (by simp)
  · simp only [hrg, hstate, hfound] at hd
    split at hd
    · exact absurd hd (by simp)
    · simp only [Except.ok.injEq] at hd
      subst hd
      rfl

/-- C8: in the virtual machine module, when the machine exists and force
is off, a state started reconciliation issues no provider mutation, and
when it returns a result the changed flag is false, whatever the desired
size, image, tags or interfaces: no field of the existing machine is
ever compared against the arguments. -/
theorem c8_existing_vm_no_diff (a : AzureRMVirtualMachine.Args)
    (p : Provider) (vm : VmData) (r : AzureRMVirtualMachine.ModuleResult)
    (hfound : p.virtualMachines.lookup (a.resource_group, a.name) = some vm)
    (hstate : a.state = VmState.started)
    (hforce : a.force = false)
    (hok : (AzureRMVirtualMachine.exec_module_impl a p false).1 = Except.ok r) :
    (AzureRMVirtualMachine.exec_module_impl a p false).2 = [] ∧ r.changed = false := by
  unfold AzureRMVirtualMachine.exec_module_impl at hok ⊢
  cases hd : AzureRMVirtualMachine.decide_phase a p
  · refine ⟨by simp [hd], ?_⟩
    simp only [hd] at hok
    exact absurd hok (by simp)
  · rename_i d
    have hch : d.changed = false := by
      rw [vm_decide_changed_of_found a p vm d hfound hstate hd]; exact hforce
    refine ⟨by simp [hd, AzureRMVirtualMachine.apply_phase, hch], ?_⟩
    simp only [hd, Bool.false_eq_true, if_false,
               AzureRMVirtualMachine.apply_phase, hch] at hok
    simp only [Except.ok.injEq] at hok
    rw [← hok]

/-- C9: in the virtual machine module, the disk-blob cleanup branch of
cascading delete can never complete: whenever vhd cleanup is requested,
delete_vm raises at the capture step (the out-of-scope name vm, line
364) with an empty mutation trace, so no blob is ever deleted; had the
capture succeeded, line 398 would call the delete_virtual_storage
instance attribute, a Bool set from the module arguments that shadows
the method of the same name, which also raises. -/
theorem c9_disk_cleanup_always_raises (a : AzureRMVirtualMachine.Args)
    (h : a.delete_virtual_storage = true) :
    AzureRMVirtualMachine.delete_vm a =
      (Except.error AzureRMVirtualMachine.vm_not_defined_msg, []) := by
  unfold AzureRMVirtualMachine.delete_vm
  simp [h]

/-- The C9 witness arguments: a cascading delete with vhd cleanup. -/
def c9args : AzureRMVirtualMachine.Args :=
  { resource_group := "Testing", name := "testvm009", state := VmState.absent,
    location := none, short_hostname := none, vm_size := "Standard_D1",
    force := false, admin_username := none, admin_password := none,
    ssh_password := true, ssh_public_key := none, image_publisher := none,
    image_offer := none, image_sku := none, image_version := "latest",
    storage_account_name := none, storage_container_name := "vhds",
    storage_blob_name := none, os_disk_caching := "ReadOnly", os_type := "linux",
    network_interface_names := [], delete_network_interfaces := false,
    delete_virtual_storage := true, delete_public_ips := false, tags := none }

/-- C9 witness: the theorem applied at concrete arguments. -/
theorem c9_witness :
    AzureRMVirtualMachine.delete_vm c9args =
      (Except.error AzureRMVirtualMachine.vm_not_defined_msg, []) :=
  c9_disk_cleanup_always_raises c9args rfl

/-- Helper: when the resource group exists with state present and the
desired location does not equal the observed one, exec_module_impl
aborts with the cannot-be-moved message before issuing any mutation,
check mode or not. -/
theorem rg_location_mismatch_aborts (a : AzureRMResourceGroup.Args) (p : Provider)
    (rg : RGData) (cm : Bool)
    (hfound : p.resourceGroups.lookup a.name = some rg)
    (hstate : a.state = RState.present)
    (hloc : locEq rg.location a.location = false) :
    AzureRMResourceGroup.exec_module_impl a p cm =
      (Except.error (AzureRMResourceGroup.location_moved_msg a), []) := by
  unfold AzureRMResourceGroup.exec_module_impl AzureRMResourceGroup.decide_phase
  simp only [hfound, hstate]
  cases htd : tagsEq (resource_group_to_dict rg).tags a.tags <;>
    simp [htd, resource_group_to_dict, hloc]

/-- C6: the location of an existing resource group is immutable: with
state present and a desired location that differs from the observed one,
the invocation aborts with the precondition failure of lines 198-200 and
issues no create, update or delete call, in or out of check mode. -/
theorem c6_rg_location_immutable (a : AzureRMResourceGroup.Args) (p : Provider)
    (rg : RGData) (cm : Bool)
    (hfound : p.resourceGroups.lookup a.name = some rg)
    (hstate : a.state = RState.present)
    (hloc : locEq rg.location a.location = false) :
    AzureRMResourceGroup.exec_module_impl a p cm =
      (Except.error (AzureRMResourceGroup.location_moved_msg a), []) :=
  rg_location_mismatch_aborts a p rg cm hfound hstate hloc

/-- The C6 witness scenario: the group Testing observed in eastus2,
desired location westus. -/
def c6rg : RGData :=
  { id := "/resourceGroups/Testing", name := "Testing", location := "eastus2",
    tags := some [("testing", "testing")], provisioning_state := "Succeeded" }

/-- The C6 witness provider state. -/
def c6prov : Provider :=
  { resourceGroups := [("Testing", c6rg)], networkInterfaces := [],
    publicIPs := [], securityGroups := [], subnets := [], virtualMachines := [],
    vmSizes := [], images := [], storageAccounts := [] }

/-- The C6 witness arguments. -/
def c6args : AzureRMResourceGroup.Args :=
  { name := "Testing", state := RState.present, location := some "westus",
    tags := some [("testing", "testing")], force := false }

/-- C6 witness: the theorem applied at concrete inputs. -/
theorem c6_witness :
    AzureRMResourceGroup.exec_module_impl c6args c6prov false =
      (Except.error (AzureRMResourceGroup.location_moved_msg c6args), []) :=
  c6_rg_location_immutable c6args c6prov c6rg false rfl rfl (by decide)

/-- C10: reconciling an existing resource group with state present and
no location supplied always aborts (the absent desired location is
compared against the observed one and treated as an attempted move) with
no mutation issued; consequently any successful present-state run on an
existing group must have re-stated the current location exactly. -/
theorem c10_existing_rg_requires_location (a : AzureRMResourceGroup.Args)
    (p : Provider) (rg : RGData)
    (hfound : p.resourceGroups.lookup a.name = some rg)
    (hstate : a.state = RState.present) :
    (a.location = none →
      ∀ cm : Bool, AzureRMResourceGroup.exec_module_impl a p cm =
        (Except.error (AzureRMResourceGroup.location_moved_msg a), [])) ∧
    (∀ r : AzureRMResourceGroup.ModuleResult,
      (AzureRMResourceGroup.exec_module_impl a p false).1 = Except.ok r →
      a.location = some rg.location) := by
  constructor
  · intro hnone cm
    refine rg_location_mismatch_aborts a p rg cm hfound hstate ?_
    rw [hnone]
    rfl
  · intro r hok
    cases hl : locEq rg.location a.location
    · exfalso
      have hE := rg_location_mismatch_aborts a p rg false hfound hstate hl
      rw [hE] at hok
      exact absurd hok (by simp)
    · unfold locEq at hl
      cases hLoc : a.location
      · rw [hLoc] at hl
        simp at hl
      · rename_i l
        rw [hLoc] at hl
        simp only [beq_iff_eq] at hl
        rw [hl]

/-- The C10 witness scenario: an existing group, present state, tags
supplied, location omitted. -/
def c10rg : RGData :=
  { id := "/resourceGroups/Testing10", name := "Testing10", location := "eastus2",
    tags := some [("a", "1")], provisioning_state := "Succeeded" }

/-- The C10 witness provider state. -/
def c10prov : Provider :=
  { resourceGroups := [("Testing10", c10rg)], networkInterfaces := [],
    publicIPs := [], securityGroups := [], subnets := [], virtualMachines := [],
    vmSizes := [], images := [], storageAccounts := [] }

/-- The C10 witness arguments: a tags-only update with no location. -/
def c10args : AzureRMResourceGroup.Args :=
  { name := "Testing10", state := RState.present, location := none,
    tags := some [("b", "2")], force := false }

/-- C10 witness: the theorem applied at concrete inputs. -/
theorem c10_witness :
    AzureRMResourceGroup.exec_module_impl c10args c10prov false =
      (Except.error (AzureRMResourceGroup.location_moved_msg c10args), []) :=
  (c10_existing_rg_requires_location c10args c10prov c10rg rfl rfl).1 rfl false

/-- Helper: a successful non-check run of the resource group module with
force on, state present and the group found has changed true and a
delete-then-recreate mutation trace. -/
theorem rg_force_found_result (a : AzureRMResourceGroup.Args) (p : Provider)
    (rg : RGData) (r : AzureRMResourceGroup.ModuleResult)
    (hfound : p.resourceGroups.lookup a.name = some rg)
    (hforce : a.force = true)
    (hstate : a.state = RState.present)
    (hok : (AzureRMResourceGroup.exec_module_impl a p false).1 = Except.ok r) :
    r.changed = true ∧
    (AzureRMResourceGroup.exec_module_impl a p false).2 =
      [Mut.deleteResourceGroup a.name,
       Mut.createOrUpdateResourceGroup a.name
         { location := rg.location, tags := a.tags }] := by
  have hlo : a.location = some rg.location := by
    cases hl : locEq rg.location a.location
    · exfalso
      have hE := rg_location_mismatch_aborts a p rg false hfound hstate hl
      rw [hE] at hok
      exact absurd hok (by simp)
    · unfold locEq at hl
      cases hLoc : a.location
      · rw [hLoc] at hl
        simp at hl
      · rename_i l
        rw [hLoc] at hl
        simp only [beq_iff_eq] at hl
        rw [hl]
  cases hq : rg.location == ""
  case true =>
    exfalso
    have hE : (AzureRMResourceGroup.exec_module_impl a p false).1 =
        Except.error AzureRMResourceGroup.location_required_msg := by
      unfold AzureRMResourceGroup.exec_module_impl AzureRMResourceGroup.decide_phase
        AzureRMResourceGroup.apply_phase
      simp only [hfound, hstate]
      cases htd : tagsEq (resource_group_to_dict rg).tags a.tags <;>
        simp [htd, hforce, hlo, hq, locEq, strTruthy, resource_group_to_dict]
    rw [hE] at hok
    exact absurd hok (by simp)
  case false =>
    have hE : AzureRMResourceGroup.exec_module_impl a p false =
        (Except.ok { changed := true,
                     results := AzureRMResourceGroup.Results.rg (resource_group_to_dict
                       (AzureRMResourceGroup.create_or_update_echo a.name
                         { location := rg.location, tags := a.tags })) },
         [Mut.deleteResourceGroup a.name,
          Mut.createOrUpdateResourceGroup a.name
            { location := rg.location, tags := a.tags }]) := by
      unfold AzureRMResourceGroup.exec_module_impl AzureRMResourceGroup.decide_phase
        AzureRMResourceGroup.apply_phase
      simp only [hfound, hstate]
      cases htd : tagsEq (resource_group_to_dict rg).tags a.tags <;>
        simp [htd, hforce, hlo, hq, locEq, strTruthy, resource_group_to_dict]
    rw [hE] at hok
    simp only [Except.ok.injEq] at hok
    exact ⟨by rw [← hok], by rw [hE]⟩

/-- Helper: a successful non-check run of the virtual machine module
with force on, state started and the machine found has changed true and
a delete-then-recreate mutation trace. -/
theorem vm_force_found_result (a : AzureRMVirtualMachine.Args) (p : Provider)
    (vm : VmData) (r : AzureRMVirtualMachine.ModuleResult)
    (hfound : p.virtualMachines.lookup (a.resource_group, a.name) = some vm)
    (hforce : a.force = true)
    (hstate : a.state = VmState.started)
    (hok : (AzureRMVirtualMachine.exec_module_impl a p false).1 = Except.ok r) :
    r.changed = true ∧
    ∃ s, (AzureRMVirtualMachine.exec_module_impl a p false).2 =
      [Mut.deleteVirtualMachine a.resource_group a.name,
       Mut.createOrUpdateVirtualMachine a.resource_group a.name s] := by
  cases hd : AzureRMVirtualMachine.decide_phase a p
  · exfalso
    unfold AzureRMVirtualMachine.exec_module_impl at hok
    simp only [hd] at hok
    exact absurd hok (by simp)
  · rename_i d
    have hch : d.changed = true := by
      rw [vm_decide_changed_of_found a p vm d hfound hstate hd]; exact hforce
    cases hdv : a.delete_virtual_storage
    case true =>
      exfalso
      unfold AzureRMVirtualMachine.exec_module_impl at hok
      simp [hd, AzureRMVirtualMachine.apply_phase, hch, hstate, hforce,
            AzureRMVirtualMachine.delete_vm, hdv] at hok
    case false =>
      cases hdn : a.delete_network_interfaces
      case true =>
        exfalso
        unfold AzureRMVirtualMachine.exec_module_impl at hok
        simp [hd, AzureRMVirtualMachine.apply_phase, hch, hstate, hforce,
              AzureRMVirtualMachine.delete_vm, hdv, hdn] at hok
      case false =>
        have hE : AzureRMVirtualMachine.exec_module_impl a p false =
            (Except.ok { changed := true,
                         results := AzureRMVirtualMachine.Results.created
                           (AzureRMVirtualMachine.build_vm_resource a d) },
             [Mut.deleteVirtualMachine a.resource_group a.name,
              Mut.createOrUpdateVirtualMachine a.resource_group a.name
                (AzureRMVirtualMachine.build_vm_resource a d)]) := by
          unfold AzureRMVirtualMachine.exec_module_impl
          simp [hd, AzureRMVirtualMachine.apply_phase, hch, hstate, hforce,
                AzureRMVirtualMachine.delete_vm, hdv, hdn]
        rw [hE] at hok
        simp only [Except.ok.injEq] at hok
        exact ⟨by rw [← hok],
               ⟨AzureRMVirtualMachine.build_vm_resource a d, by rw [hE]⟩⟩

/-- C7: force-flag dominance: in every successful non-check
reconciliation with force on where the resource exists — state present
for the resource group module, state started for the virtual machine
module — the result reports changed true whatever the field equalities,
and the mutation trace is exactly delete-then-recreate: the existing
resource is deleted and a new one is created. -/
theorem c7_force_dominance (ra : AzureRMResourceGroup.Args) (p : Provider)
    (rg : RGData) (r : AzureRMResourceGroup.ModuleResult)
    (hfound : p.resourceGroups.lookup ra.name = some rg)
    (hforce : ra.force = true)
    (hstate : ra.state = RState.present)
    (hok : (AzureRMResourceGroup.exec_module_impl ra p false).1 = Except.ok r)
    (va : AzureRMVirtualMachine.Args) (pv : Provider)
    (vm : VmData) (rv : AzureRMVirtualMachine.ModuleResult)
    (hfoundv : pv.virtualMachines.lookup (va.resource_group, va.name) = some vm)
    (hforcev : va.force = true)
    (hstatev : va.state = VmState.started)
    (hokv : (AzureRMVirtualMachine.exec_module_impl va pv false).1 = Except.ok rv) :
    r.changed = true ∧
    (AzureRMResourceGroup.exec_module_impl ra p false).2 =
      [Mut.deleteResourceGroup ra.name,
       Mut.createOrUpdateResourceGroup ra.name
         { location := rg.location, tags := ra.tags }] ∧
    rv.changed = true ∧
    (∃ s, (AzureRMVirtualMachine.exec_module_impl va pv false).2 =
      [Mut.deleteVirtualMachine va.resource_group va.name,
       Mut.createOrUpdateVirtualMachine va.resource_group va.name s]) := by
  obtain ⟨h1, h2⟩ := rg_force_found_result ra p rg r hfound hforce hstate hok
  obtain ⟨h3, h4⟩ := vm_force_found_result va pv vm rv hfoundv hforcev hstatev hokv
  exact ⟨h1, h2, h3, h4⟩

/-! Concrete scenario for the C7 witness: a resource group and a virtual
machine that both already exist, reconciled with force on and every
desired field equal to the observed one. -/

/-- The C7 witness resource group. -/
def c7rg : RGData :=
  { id := "/resourceGroups/Testing7", name := "Testing7", location := "eastus2",
    tags := none, provisioning_state := "Succeeded" }

/-- The C7 witness provider state for the resource group module. -/
def c7prov : Provider :=
  { resourceGroups := [("Testing7", c7rg)], networkInterfaces := [],
    publicIPs := [], securityGroups := [], subnets := [], virtualMachines := [],
    vmSizes := [], images := [], storageAccounts := [] }

/-- The C7 witness resource group arguments: identical desired fields,
force on. -/
def c7rga : AzureRMResourceGroup.Args :=
  { name := "Testing7", state := RState.present, location := some "eastus2",
    tags := none, force := true }

/-- The resource group result the C7 witness run returns. -/
def c7rgr : AzureRMResourceGroup.ModuleResult :=
  { changed := true,
    results := AzureRMResourceGroup.Results.rg (resource_group_to_dict
      (AzureRMResourceGroup.create_or_update_echo "Testing7"
        { location := "eastus2", tags := none })) }

/-- The C7 witness machine. -/
def c7vm : VmData :=
  { id := "/resourceGroups/Testing/virtualMachines/testvm007",
    name := "testvm007", location := "eastus" }

/-- The C7 witness interface referenced by the machine. -/
def c7nic : NicData :=
  { id := "/resourceGroups/Testing/networkInterfaces/nic01", name := "nic01",
    type := "Microsoft.Network/networkInterfaces", location := "eastus",
    tags := none, network_security_group := none,
    ip_configurations :=
      [{ name := "default", private_ip_address := none,
         private_ip_allocation_method := "Dynamic", subnet := none,
         public_ip_address := none }],
    dns_settings := ⟨[], [], none, none⟩, mac_address := none, primary := none,
    enable_ip_forwarding := false, provisioning_state := "Succeeded", etag := "" }

/-- The C7 witness provider state for the virtual machine module. -/
def c7vmprov : Provider :=
  { resourceGroups :=
      [("Testing", { id := "/resourceGroups/Testing", name := "Testing",
                     location := "eastus", tags := none,
                     provisioning_state := "Succeeded" })],
    networkInterfaces := [(("Testing", "nic01"), c7nic)],
    publicIPs := [], securityGroups := [], subnets := [],
    virtualMachines := [(("Testing", "testvm007"), c7vm)],
    vmSizes := [("eastus", ["Standard_A0"])],
    images := [(("eastus", "OpenLogic", "CentOS", "7.1"), ["7.1.20160308"])],
    storageAccounts := [("Testing", "testaccount001")] }

/-- The C7 witness machine arguments: force on, state started. -/
def c7vma : AzureRMVirtualMachine.Args :=
  { resource_group := "Testing", name := "testvm007", state := VmState.started,
    location := none, short_hostname := some "testvm", vm_size := "Standard_A0",
    force := true, admin_username := some "chouseknecht",
    admin_password := some "Password123", ssh_password := true,
    ssh_public_key := none, image_publisher := some "OpenLogic",
    image_offer := some "CentOS", image_sku := some "7.1",
    image_version := "latest", storage_account_name := some "testaccount001",
    storage_container_name := "vhds", storage_blob_name := none,
    os_disk_caching := "ReadOnly", os_type := "linux",
    network_interface_names := ["nic01"], delete_network_interfaces := false,
    delete_virtual_storage := false, delete_public_ips := false, tags := none }

/-- The machine specification the C7 witness run submits. -/
def c7spec : VmSpec :=
  { location := "eastus", name := "testvm007", tags := none,
    os_profile := { admin_username := some "chouseknecht",
                    admin_password := some "Password123",
                    computer_name := some "testvm" },
    vm_size := "Standard_A0",
    os_disk := { name := "testvm007.vsd",
                 vhd_uri := "https://testaccount001.blob.core.windows.net/vhds/testvm007.vsd.vhd",
                 create_option := "fromImage", caching := "ReadOnly" },
    image_reference := { publisher := some "OpenLogic", offer := some "CentOS",
                         sku := some "7.1", version := "7.1.20160308" },
    network_interface_ids := ["/resourceGroups/Testing/networkInterfaces/nic01"] }

/-- The machine result the C7 witness run returns. -/
def c7vmr : AzureRMVirtualMachine.ModuleResult :=
  { changed := true, results := AzureRMVirtualMachine.Results.created c7spec }

/-- C7 witness: the theorem applied at concrete inputs whose desired
fields all equal the observed ones. -/
theorem c7_witness :
    c7rgr.changed = true ∧
    (AzureRMResourceGroup.exec_module_impl c7rga c7prov false).2 =
      [Mut.deleteResourceGroup "Testing7",
       Mut.createOrUpdateResourceGroup "Testing7"
         { location := "eastus2", tags := none }] ∧
    c7vmr.changed = true ∧
    (∃ s, (AzureRMVirtualMachine.exec_module_impl c7vma c7vmprov false).2 =
      [Mut.deleteVirtualMachine "Testing" "testvm007",
       Mut.createOrUpdateVirtualMachine "Testing" "testvm007" s]) :=
  c7_force_dominance c7rga c7prov c7rg c7rgr rfl rfl rfl rfl
    c7vma c7vmprov c7vm c7vmr rfl rfl rfl rfl

/-! Concrete scenario for the C8 witness: an existing machine reconciled
with state started, force off and desired properties (size, tags) that
deliberately differ from the machine. -/

/-- The C8 witness machine. -/
def c8vm : VmData :=
  { id := "/resourceGroups/Testing/virtualMachines/testvm008",
    name := "testvm008", location := "eastus" }

/-- The C8 witness interface referenced by the arguments. -/
def c8nic : NicData :=
  { id := "/resourceGroups/Testing/networkInterfaces/nic08", name := "nic08",
    type := "Microsoft.Network/networkInterfaces", location := "eastus",
    tags := none, network_security_group := none,
    ip_configurations :=
      [{ name := "default", private_ip_address := none,
         private_ip_allocation_method := "Dynamic", subnet := none,
         public_ip_address := none }],
    dns_settings := ⟨[], [], none, none⟩, mac_address := none, primary := none,
    enable_ip_forwarding := false, provisioning_state := "Succeeded", etag := "" }

/-- The C8 witness provider state. -/
def c8prov : Provider :=
  { resourceGroups :=
      [("Testing", { id := "/resourceGroups/Testing", name := "Testing",
                     location := "eastus", tags := none,
                     provisioning_state := "Succeeded" })],
    networkInterfaces := [(("Testing", "nic08"), c8nic)],
    publicIPs := [], securityGroups := [], subnets := [],
    virtualMachines := [(("Testing", "testvm008"), c8vm)],
    vmSizes := [("eastus", ["Standard_A0", "Standard_A1"])],
    images := [(("eastus", "OpenLogic", "CentOS", "7.1"), ["7.1.20160308"])],
    storageAccounts := [("Testing", "testaccount001")] }

/-- The C8 witness arguments: size and tags differing from the machine,
force off. -/
def c8args : AzureRMVirtualMachine.Args :=
  { resource_group := "Testing", name := "testvm008", state := VmState.started,
    location := none, short_hostname := some "othername",
    vm_size := "Standard_A1", force := false,
    admin_username := some "otheradmin", admin_password := some "Password456",
    ssh_password := true, ssh_public_key := none,
    image_publisher := some "OpenLogic", image_offer := some "CentOS",
    image_sku := some "7.1", image_version := "latest",
    storage_account_name := some "testaccount001",
    storage_container_name := "vhds", storage_blob_name := none,
    os_disk_caching := "ReadOnly", os_type := "linux",
    network_interface_names := ["nic08"], delete_network_interfaces := false,
    delete_virtual_storage := false, delete_public_ips := false,
    tags := some [("env", "prod")] }

/-- C8 witness: the theorem applied at concrete inputs whose desired
properties differ from the existing machine. -/
theorem c8_witness :
    (AzureRMVirtualMachine.exec_module_impl c8args c8prov false).2 = [] ∧
    ({ changed := false, results := AzureRMVirtualMachine.Results.empty } :
      AzureRMVirtualMachine.ModuleResult).changed = false :=
  c8_existing_vm_no_diff c8args c8prov c8vm
    { changed := false, results := AzureRMVirtualMachine.Results.empty }
    rfl rfl rfl rfl
